import Mathlib

/-!
Verification development for the icad_tr_mqtt_consumer repository.

The definitions below are a shallow embedding of the Python sources:

* `lib/call_processor.py` — the per-call pipeline `process_mqtt_call`,
  the duplicate detector `is_duplicate`, the shared `message_history`
  window, and the per-sink talkgroup gates;
* `lib/audio_file_handler.py` — the branch structure of
  `compress_wav_m4a` (outcomes of the external world — file presence,
  encoder presence, subprocess exit status, loudnorm JSON extraction —
  are inputs of type `TranscodeEnv`);
* `lib/elasticsearch_handler.py` — the index names, `create_indices`
  and the dispatch of `index_document`;
* `lib/helper_handler.py` — the template engine `generate_mapped_json`
  (JSON values are the mutual inductive `Jval`; the scanning loop over a
  string takes a fuel argument counting loop iterations, since the
  source loop's termination depends on the substituted values; every
  theorem below quantifies over the fuel);
* `lib/mqtt_handler.py` — the index name used for `units/...` messages
  and the receive-timestamp injection.

Python `float` values (start times, call lengths) are modelled as `ℚ`;
Python exceptions caught by a surrounding handler are modelled as
`Option` with `none` for the exceptional return.  External I/O
(file system, HTTP, subprocesses) is modelled by an environment record
of outcomes plus an `Effect` trace listing the operations the pipeline
performs.
-/

/-- Characters used by the template scanner; written via code points so the
braces never appear literally in the file. -/
def braceOpen : Char := Char.ofNat 123

def braceClose : Char := Char.ofNat 125

/-- An entry of an `allowed_talkgroups` configuration list: either the
wildcard string or a talkgroup integer (`call_processor.py` compares the
call's integer talkgroup and the wildcard string against this list). -/
inductive TgEntry where
  | star : TgEntry
  | tg : Int → TgEntry
deriving DecidableEq

mutual
/-- JSON-like values (mutual with lists and objects so that all recursion
over them is structural).  Strings are lists of characters; object keys
are strings (the template engine renders keys as well as values). -/
inductive Jval where
  | str : List Char → Jval
  | num : ℚ → Jval
  | bool : Bool → Jval
  | null : Jval
  | arr : JvalList → Jval
  | obj : JvalObj → Jval
inductive JvalList where
  | nil : JvalList
  | cons : Jval → JvalList → JvalList
inductive JvalObj where
  | nil : JvalObj
  | cons : List Char → Jval → JvalObj → JvalObj
end

/-- One call record, with the fields `process_mqtt_call` reads or writes.
`tones` and `transcript` hold the JSON values the pipeline assigns. -/
structure CallData where
  short_name : String
  talkgroup : Int
  start_time : ℚ
  call_length : ℚ
  instance_id : String
  filename : String
  freqList : List ℚ
  tones : Jval
  transcript : Jval
  play_length : ℚ
  audio_wav_url : Option String
  audio_m4a_url : Option String
  audio_url : Option String

/-- The shared `message_history` dictionary of `call_processor.py`:
`short_name`, then talkgroup, to the list of recently accepted calls
(oldest first, appended at the end). -/
def History : Type := String → Int → List CallData

/-- `duplicate_transmission_detection` block of a system configuration. -/
structure DupConfig where
  enabled : Int
  simulcast_talkgroups : List Int
  start_difference_threshold : ℚ
  length_threshold : ℚ
  check_same_instance : Bool

/-- `m4a_audio_compression` block (`audio_file_handler.compress_wav_m4a`
reads `normalization` and `use_loudnorm` to choose one- or two-pass). -/
structure M4aCompressionConfig where
  enabled : Bool
  normalization : Bool
  use_loudnorm : Bool

/-- `audio_compression` block of a system configuration. -/
structure AudioCompressionConfig where
  m4a_audio_compression : M4aCompressionConfig

/-- One entry of `icad_tone_detect_legacy`. -/
structure LegacyDetectConfig where
  enabled : Int
  icad_url : String

/-- `tone_detection` block. -/
structure ToneDetectionConfig where
  enabled : Int
  allowed_talkgroups : List TgEntry

/-- `transcribe` block. -/
structure TranscribeConfig where
  enabled : Int
  allowed_talkgroups : List TgEntry

/-- `archive` block (only the enable flag matters to the pipeline's
control flow; upload outcomes come from the environment). -/
structure ArchiveConfig where
  enabled : Int

/-- A sink with only an enable flag (`openmhz`, `broadcastify_calls`). -/
structure SimpleSinkConfig where
  enabled : Int

/-- `icad_player` block. -/
structure PlayerConfig where
  enabled : Int
  allowed_talkgroups : List TgEntry

/-- One entry of `rdio_systems`. -/
structure RdioConfig where
  enabled : Int
  rdio_url : String

/-- One entry of `trunk_player_systems`. -/
structure TrunkPlayerConfig where
  enabled : Int
  api_url : String

/-- One entry of `icad_cloud_detect`. -/
structure CloudDetectConfig where
  enabled : Int
  allowed_talkgroups : List TgEntry
  api_url : String

/-- `icad_alerting` block. -/
structure AlertingConfig where
  enabled : Int
  allowed_talkgroups : List TgEntry

/-- One entry of `webhooks`. -/
structure WebhookConfig where
  enabled : Int
  allowed_talkgroups : List TgEntry
  webhook_url : String

/-- Per-system configuration (`systems.<short_name>` in the global
configuration). -/
structure SystemConfig where
  duplicate_transmission_detection : DupConfig
  audio_compression : AudioCompressionConfig
  icad_tone_detect_legacy : List LegacyDetectConfig
  tone_detection : ToneDetectionConfig
  transcribe : TranscribeConfig
  archive : ArchiveConfig
  openmhz : SimpleSinkConfig
  broadcastify_calls : SimpleSinkConfig
  icad_player : PlayerConfig
  rdio_systems : List RdioConfig
  trunk_player_systems : List TrunkPlayerConfig
  icad_cloud_detect : List CloudDetectConfig
  icad_alerting : AlertingConfig
  webhooks : List WebhookConfig

/-- Global configuration: the `systems` mapping keyed by `short_name`. -/
structure GlobalConfig where
  systems : List (String × SystemConfig)

/-- Lookup of `global_config_data.get("systems", {}).get(short_name, {})`. -/
def lookupSystem : List (String × SystemConfig) → String → Option SystemConfig
  | [], _ => none
  | (k, v) :: rest, key => if k = key then some v else lookupSystem rest key

/-- Outcomes of the external world seen by `compress_wav_m4a`: whether the
source WAV exists, whether ffmpeg is on the PATH, whether each subprocess
exits zero, and whether the loudnorm JSON block appears in the first
pass's diagnostic output. -/
structure TranscodeEnv where
  wavExists : Bool
  ffmpegPresent : Bool
  pass1Ok : Bool
  loudnormJsonFound : Bool
  pass2Ok : Bool
  singlePassOk : Bool

/-- `audio_file_handler.compress_wav_m4a`: returns whether an M4A file now
exists.  Mirrors the source's branch structure: missing WAV and missing
ffmpeg return `False`; with `normalization` and `use_loudnorm` both set
it runs two passes and fails on a nonzero first pass, a missing loudnorm
JSON block, or a nonzero second pass; otherwise it runs a single pass and
fails on a nonzero exit. -/
def compress_wav_m4a (cfg : M4aCompressionConfig) (t : TranscodeEnv) : Bool :=
  if !t.wavExists then false
  else if !t.ffmpegPresent then false
  else if cfg.normalization && cfg.use_loudnorm then
    if !t.pass1Ok then false
    else if !t.loudnormJsonFound then false
    else if !t.pass2Ok then false
    else true
  else
    if !t.singlePassOk then false
    else true

/-- `call_processor.talkgroup_is_allowed`: the wildcard is in the set, or
the talkgroup integer is. -/
def talkgroup_is_allowed (talkgroup_decimal : Int) (allowed : List TgEntry) : Bool :=
  decide (TgEntry.star ∈ allowed) || decide (TgEntry.tg talkgroup_decimal ∈ allowed)

/-- The inline skip test used by the tone-detection, iCAD Player,
iCAD Alerting and webhook gates in `process_mqtt_call`: the talkgroup is
not in the list and the wildcard is not in the list. -/
def sink_gate_rejects (talkgroup_decimal : Int) (allowed : List TgEntry) : Bool :=
  !(decide (TgEntry.tg talkgroup_decimal ∈ allowed)) && !(decide (TgEntry.star ∈ allowed))

/-- The iCAD Cloud Detect gate in `process_mqtt_call`: membership of the
talkgroup integer in `allowed_talkgroups` (no wildcard test appears in
that branch of the source). -/
def cloud_detect_gate (talkgroup_decimal : Int) (allowed : List TgEntry) : Bool :=
  decide (TgEntry.tg talkgroup_decimal ∈ allowed)

/-- `call_processor.is_duplicate` (the existing message is the first
argument, the newly arrived one the second, as at the call site). -/
def is_duplicate (message1 message2 : CallData) (time_tolerance length_tolerance : ℚ)
    (check_same_instance_id : Bool) : Bool :=
  if !check_same_instance_id && decide (message1.instance_id = message2.instance_id) then
    false
  else
    decide (message1.start_time - time_tolerance ≤ message2.start_time) &&
    decide (message2.start_time ≤ message1.start_time + time_tolerance) &&
    decide (message1.call_length - length_tolerance ≤ message2.call_length) &&
    decide (message2.call_length ≤ message1.call_length + length_tolerance)

/-- The talkgroups checked for duplicates: the whole simulcast list when
the call's talkgroup is in it, otherwise just the call's talkgroup. -/
def relevantTalkgroups (d : DupConfig) (talkgroup_decimal : Int) : List Int :=
  if talkgroup_decimal ∈ d.simulcast_talkgroups then d.simulcast_talkgroups
  else [talkgroup_decimal]

/-- The read phase of the duplicate detector: scan the history of every
relevant talkgroup for a duplicate of the arriving call. -/
def dedupCheck (d : DupConfig) (sn : String) (call : CallData) (h : History) : Bool :=
  (relevantTalkgroups d call.talkgroup).any (fun t =>
    (h sn t).any (fun m =>
      is_duplicate m call d.start_difference_threshold d.length_threshold
        d.check_same_instance))

/-- Python slice `xs[-15:]` applied when the list exceeds 15 entries:
keeps the 15 most recent (last) entries. -/
def truncate15 (l : List CallData) : List CallData :=
  if l.length > 15 then l.drop (l.length - 15) else l

/-- Append the accepted call to one `(short_name, talkgroup)` entry of the
history and truncate that entry. -/
def historyAppend (h : History) (sn : String) (t : Int) (call : CallData) : History :=
  fun sn2 t2 => if sn2 = sn ∧ t2 = t then truncate15 (h sn t ++ [call]) else h sn2 t2

/-- The write phase of the duplicate detector: append the accepted call
under every relevant talkgroup, in list order. -/
def dedupInsert (d : DupConfig) (sn : String) (call : CallData) (h : History) : History :=
  (relevantTalkgroups d call.talkgroup).foldl (fun acc t => historyAppend acc sn t call) h

/-- The full check-and-insert sequence of `process_mqtt_call` (lines
64-96): returns the updated history and whether a duplicate was
detected; a detected duplicate leaves the history unchanged. -/
def dedupCheckInsert (d : DupConfig) (sn : String) (call : CallData) (h : History) :
    History × Bool :=
  if dedupCheck d sn call h then (h, true) else (dedupInsert d sn call h, false)

/-- Duplicate handling of `process_mqtt_call` including the enable flag:
when `duplicate_transmission_detection.enabled` is not 1, the whole block
is skipped. -/
def dedupOutcome (scfg : SystemConfig) (call : CallData) (h : History) : History × Bool :=
  if scfg.duplicate_transmission_detection.enabled = 1 then
    dedupCheckInsert scfg.duplicate_transmission_detection call.short_name call h
  else (h, false)

/-- An interleaving of two workers each running check then insert on the
shared history with no lock held between the two phases: both check
against the initial history, then both insert.  (`history_lock` is
defined in `call_processor.py` but never acquired, so this schedule is
admissible for the source.) -/
def interleavedCheckInsert (d : DupConfig) (sn : String) (c1 c2 : CallData)
    (h0 : History) : History :=
  let b1 := dedupCheck d sn c1 h0
  let b2 := dedupCheck d sn c2 h0
  let h1 := if b1 then h0 else dedupInsert d sn c1 h0
  if b2 then h1 else dedupInsert d sn c2 h1

/-- The serialized execution of the same two workers: the second runs its
whole check-and-insert after the first. -/
def serializedCheckInsert (d : DupConfig) (sn : String) (c1 c2 : CallData)
    (h0 : History) : History :=
  (dedupCheckInsert d sn c2 (dedupCheckInsert d sn c1 h0).1).1

/-- Index names of `elasticsearch_handler.ElasticSearchClient`. -/
def transmission_index : String := "icad-transmissions"

/-- Rates index name. -/
def rate_index : String := "icad-rates"

/-- Recorders index name. -/
def recorder_index : String := "icad-recorders"

/-- Duplicates index name. -/
def duplicate_index : String := "icad-duplicates"

/-- The indices created by `ElasticSearchClient.create_indices`, in call
order (rates, transmissions, recorders, duplicates). -/
def create_indices : List String := [rate_index, transmission_index, recorder_index,
  duplicate_index]

/-- The dispatch of `ElasticSearchClient.index_document`: the index
actually written for a given `index_type`, or `none` when the method logs
an unknown-index warning and returns without indexing. -/
def index_document_target (index_type : String) : Option String :=
  if index_type = transmission_index then some transmission_index
  else if index_type = recorder_index then some recorder_index
  else if index_type = rate_index then some rate_index
  else if index_type = duplicate_index then some duplicate_index
  else none

/-- The index name `mqtt_handler.MQTTClient.process_message` passes to
`index_document` for `units/call` and `units/end` messages. -/
def units_document_index : String := "icad-units"

/-- The observable operations of one pipeline run, in program order. -/
inductive Effect where
  | indexDoc : String → Effect
  | tempWrite : Effect
  | transcodeAttempt : Effect
  | legacyUpload : String → Effect
  | toneDetect : Effect
  | transcribeUpload : Effect
  | saveJsonSidecar : Effect
  | archiveUpload : Effect
  | openmhzUpload : Effect
  | bcfyUpload : Effect
  | icadPlayerUpload : Effect
  | rdioUpload : String → Effect
  | trunkPlayerUpload : String → Effect
  | cloudDetectUpload : String → Effect
  | alertUpload : Effect
  | webhookSend : String → Effect
  | cleanTemp : Effect
deriving DecidableEq

/-- Position of the first occurrence of a character (Python `str.find`). -/
def findChar (c : Char) : List Char → Option Nat
  | [] => none
  | x :: xs => if x = c then some (0 : Nat) else (findChar c xs).map (· + 1)

/-- The scan step of `replace_placeholders` for strings: the first
opening brace, then the first closing brace at or after it.  Returns the
text before the token, the token body, and the text after, or `none`
when the source loop would break. -/
def findPlaceholder (s : List Char) : Option (List Char × List Char × List Char) :=
  match findChar braceOpen s with
  | none => none
  | some i =>
    match findChar braceClose (s.drop (i + 1)) with
    | none => none
    | some j => some (s.take i, (s.drop (i + 1)).take j, (s.drop (i + 1)).drop (j + 1))

/-- A string contains no placeholder token the scanner would act on. -/
def strNoPh (s : List Char) : Bool := (findPlaceholder s).isNone

/-- Dictionary lookup on an object (first matching key). -/
def lookupObj : JvalObj → List Char → Option Jval
  | .nil, _ => none
  | .cons k v rest, key => if k = key then some v else lookupObj rest key

/-- Python dictionary assignment `d[key] = v`: update in place when the
key exists, otherwise append. -/
def setKey : JvalObj → List Char → Jval → JvalObj
  | .nil, key, v => .cons key v .nil
  | .cons k0 v0 rest, key, v =>
    if k0 = key then .cons k0 v rest else .cons k0 v0 (setKey rest key v)

/-- Python `key.split(".")` (one more piece than there are dots). -/
def splitOnDot : List Char → List (List Char)
  | [] => [[]]
  | c :: rest =>
    if c = '.' then [] :: splitOnDot rest
    else
      match splitOnDot rest with
      | [] => [[c]]
      | p :: ps => (c :: p) :: ps

/-- `get_value_from_dict` of `helper_handler.py`: walk the dot path with
`d.get(k, "")`, breaking as soon as the current value is the empty
string; calling `.get` on a non-dictionary raises, modelled as `none`. -/
def getValueFromDict : Jval → List (List Char) → Option Jval
  | d, [] => some d
  | d, k :: ks =>
    match d with
    | .obj fields =>
      match lookupObj fields k with
      | none => some (Jval.str [])
      | some v =>
        match v with
        | .str [] => some (Jval.str [])
        | _ => getValueFromDict v ks
    | _ => none

/-- Rendering of a rational as Python would print the number (integers
without a fractional part; other rationals approximated by a quotient —
the exact float formatting of the source is not observable to any
theorem below). -/
def pyStrNum (q : ℚ) : List Char :=
  if q.den = 1 then (toString q.num).toList
  else (toString q.num).toList ++ '/' :: (toString q.den).toList

mutual
/-- Python `str(...)` of a JSON value, used when a substituted value is
not a string (container rendering approximates `repr`). -/
def pyStr : Jval → List Char
  | .str s => s
  | .num q => pyStrNum q
  | .bool b => if b then "True".toList else "False".toList
  | .null => "None".toList
  | .arr xs => '[' :: List.intercalate (", ".toList) (pyStrArr xs) ++ [']']
  | .obj xs => braceOpen :: List.intercalate (", ".toList) (pyStrFields xs) ++ [braceClose]
/-- Renderings of the elements of an array. -/
def pyStrArr : JvalList → List (List Char)
  | .nil => []
  | .cons x rest => pyStr x :: pyStrArr rest
/-- Renderings of the fields of an object. -/
def pyStrFields : JvalObj → List (List Char)
  | .nil => []
  | .cons k v rest => (k ++ (": ".toList) ++ pyStr v) :: pyStrFields rest
end

/-- Key constant. -/
def text_key : List Char := "text".toList

/-- Key constant. -/
def transcript_key : List Char := "transcript".toList

/-- Key constant. -/
def segments_key : List Char := "segments".toList

/-- Key constant. -/
def addresses_key : List Char := "addresses".toList

/-- Key constant. -/
def tones_key : List Char := "tones".toList

/-- Key constant. -/
def two_tone_key : List Char := "two_tone".toList

/-- Key constant. -/
def long_tone_key : List Char := "long_tone".toList

/-- Key constant. -/
def hi_low_tone_key : List Char := "hi_low_tone".toList

/-- Key constant. -/
def tone_id_key : List Char := "tone_id".toList

/-- Key constant. -/
def detected_key : List Char := "detected".toList

/-- Key constant. -/
def tone_a_length_key : List Char := "tone_a_length".toList

/-- Key constant. -/
def tone_b_length_key : List Char := "tone_b_length".toList

/-- Key constant. -/
def length_key : List Char := "length".toList

/-- The newline separator used by the text joins. -/
def newline_chars : List Char := ['\n']

/-- `segment["text"]` for one segment; a missing key, a non-dictionary
segment or a non-string text raises into the outer handler (`none`). -/
def segmentText : Jval → Option (List Char)
  | .obj fields =>
    match lookupObj fields text_key with
    | some (.str s) => some s
    | _ => none
  | _ => none

/-- Texts of all segments. -/
def segmentsTexts : JvalList → Option (List (List Char))
  | .nil => some []
  | .cons x rest =>
    match segmentText x, segmentsTexts rest with
    | some s, some ss => some (s :: ss)
    | _, _ => none

/-- `construct_transcript_from_segments`: newline-joined segment texts. -/
def construct_transcript_from_segments (segments : Jval) : Option (List Char) :=
  match segments with
  | .arr xs => (segmentsTexts xs).map (List.intercalate newline_chars)
  | _ => none

/-- Elements of the addresses list, all of which must be strings. -/
def addressStrings : JvalList → Option (List (List Char))
  | .nil => some []
  | .cons x rest =>
    match x, addressStrings rest with
    | .str s, some ss => some (s :: ss)
    | _, _ => none

/-- `join_addresses`: comma-joined addresses. -/
def join_addresses (addresses : Jval) : Option (List Char) :=
  match addresses with
  | .arr xs => (addressStrings xs).map (List.intercalate (", ".toList))
  | _ => none

/-- One report line for a two-tone entry. -/
def twoToneLine (html : Bool) (t : Jval) : Option (List Char) :=
  match t with
  | .obj fields =>
    match lookupObj fields tone_id_key, lookupObj fields detected_key,
        lookupObj fields tone_a_length_key, lookupObj fields tone_b_length_key with
    | some tid, some (.arr ds), some la, some lb =>
      match ds with
      | .cons d0 (.cons d1 _) =>
        let core := ("Two-tone ID: ").toList ++ pyStr tid ++ (" - A: ").toList ++
          pyStr d0 ++ (" Hz, B: ").toList ++ pyStr d1 ++ (" Hz, Duration: ").toList ++
          pyStr la ++ ("s, ").toList ++ pyStr lb ++ ("s").toList
        some (if html then ("<p>").toList ++ core ++ ("</p>").toList else core)
      | _ => none
    | _, _, _, _ => none
  | _ => none

/-- One report line for a long-tone entry. -/
def longToneLine (html : Bool) (t : Jval) : Option (List Char) :=
  match t with
  | .obj fields =>
    match lookupObj fields tone_id_key, lookupObj fields detected_key,
        lookupObj fields length_key with
    | some tid, some d, some l =>
      let core := ("Long-tone ID: ").toList ++ pyStr tid ++ (" - Frequency: ").toList ++
        pyStr d ++ (" Hz, Duration: ").toList ++ pyStr l ++ ("s").toList
      some (if html then ("<p>").toList ++ core ++ ("</p>").toList else core)
    | _, _, _ => none
  | _ => none

/-- One report line for a hi-low entry. -/
def hiLowLine (html : Bool) (t : Jval) : Option (List Char) :=
  match t with
  | .obj fields =>
    match lookupObj fields tone_id_key, lookupObj fields detected_key,
        lookupObj fields length_key with
    | some tid, some (.arr ds), some l =>
      match ds with
      | .cons d0 (.cons d1 _) =>
        let core := ("Hi-Low tone ID: ").toList ++ pyStr tid ++
          (" - Frequencies: ").toList ++ pyStr d0 ++ (" Hz, ").toList ++ pyStr d1 ++
          (" Hz, Duration: ").toList ++ pyStr l ++ ("s").toList
        some (if html then ("<p>").toList ++ core ++ ("</p>").toList else core)
      | _ => none
    | _, _, _ => none
  | _ => none

/-- Lines produced for every entry of one tone category. -/
def toneLines (html : Bool) (lineFn : Bool → Jval → Option (List Char)) :
    JvalList → Option (List (List Char))
  | .nil => some []
  | .cons x rest =>
    match lineFn html x, toneLines html lineFn rest with
    | some l, some ls => some (l :: ls)
    | _, _ => none

/-- Lines for one category of the tones dictionary: an absent key or an
empty iterable contributes no lines; iterating anything whose elements
are not tone dictionaries raises. -/
def toneCategoryLines (fields : JvalObj) (key : List Char) (html : Bool)
    (lineFn : Bool → Jval → Option (List Char)) : Option (List (List Char)) :=
  match lookupObj fields key with
  | none => some []
  | some (.arr xs) => toneLines html lineFn xs
  | some (.str []) => some []
  | some _ => none

/-- `generate_tone_report`: the human-readable tone listing, newline
joined in text mode and paragraph-concatenated in HTML mode. -/
def generate_tone_report (tones : Jval) (html : Bool) : Option (List Char) :=
  match tones with
  | .obj fields =>
    match toneCategoryLines fields two_tone_key html twoToneLine,
        toneCategoryLines fields long_tone_key html longToneLine,
        toneCategoryLines fields hi_low_tone_key html hiLowLine with
    | some a, some b, some c =>
      some (if html then List.intercalate [] (a ++ b ++ c)
            else List.intercalate newline_chars (a ++ b ++ c))
    | _, _, _ => none
  | _ => none

/-- Placeholder-name constant. -/
def segments_text_ph : List Char := "transcript.segments_text".toList

/-- Placeholder-name constant. -/
def addresses_text_ph : List Char := "transcript.addresses_text".toList

/-- Placeholder-name constant. -/
def report_html_ph : List Char := "tones.report_html".toList

/-- Placeholder-name constant. -/
def report_text_ph : List Char := "tones.report_text".toList

/-- `mapping.get(key, default)` on a value that must be a dictionary. -/
def pyDictGet (v : Jval) (key : List Char) (dflt : Jval) : Option Jval :=
  match v with
  | .obj fields => some ((lookupObj fields key).getD dflt)
  | _ => none

/-- The value substituted for one placeholder token: the four special
tokens, then the generic dot-path lookup stringified with `str`. -/
def resolvePlaceholder (data : JvalObj) (ph : List Char) : Option (List Char) :=
  if ph = segments_text_ph then
    (pyDictGet (Jval.obj data) transcript_key (Jval.obj .nil)).bind (fun tr =>
      (pyDictGet tr segments_key (Jval.arr .nil)).bind
        construct_transcript_from_segments)
  else if ph = addresses_text_ph then
    (pyDictGet (Jval.obj data) transcript_key (Jval.obj .nil)).bind (fun tr =>
      (pyDictGet tr addresses_key (Jval.arr .nil)).bind join_addresses)
  else if ph = report_html_ph then
    match lookupObj data tones_key with
    | none => none
    | some tones => generate_tone_report tones true
  else if ph = report_text_ph then
    match lookupObj data tones_key with
    | none => none
    | some tones => generate_tone_report tones false
  else
    (getValueFromDict (Jval.obj data) (splitOnDot ph)).map pyStr

/-- The `while True` scanning loop of `replace_placeholders` on one
string.  `fuel` bounds the number of substitutions performed; the source
loop's termination depends on the substituted values, and every theorem
below holds for every fuel. -/
def renderString (fuel : Nat) (data : JvalObj) (s : List Char) : Option (List Char) :=
  match fuel with
  | 0 => some s
  | Nat.succ f =>
    match findPlaceholder s with
    | none => some s
    | some (pre, ph, post) =>
      match resolvePlaceholder data ph with
      | none => none
      | some v => renderString f data (pre ++ v ++ post)

mutual
/-- `replace_placeholders`: strings are scanned, dictionaries and lists
recurse (keys are rendered like values), everything else is copied. -/
def renderJval (fuel : Nat) (data : JvalObj) : Jval → Option Jval
  | .str s => (renderString fuel data s).map Jval.str
  | .num q => some (.num q)
  | .bool b => some (.bool b)
  | .null => some .null
  | .arr xs => (renderJvalList fuel data xs).map Jval.arr
  | .obj xs => (renderJvalObj fuel data xs).map Jval.obj
/-- Rendering of list elements. -/
def renderJvalList (fuel : Nat) (data : JvalObj) : JvalList → Option JvalList
  | .nil => some .nil
  | .cons x rest =>
    match renderJval fuel data x, renderJvalList fuel data rest with
    | some y, some ys => some (.cons y ys)
    | _, _ => none
/-- Rendering of object fields (key and value). -/
def renderJvalObj (fuel : Nat) (data : JvalObj) : JvalObj → Option JvalObj
  | .nil => some .nil
  | .cons k v rest =>
    match renderString fuel data k, renderJval fuel data v, renderJvalObj fuel data rest with
    | some k2, some v2, some ys => some (.cons k2 v2 ys)
    | _, _, _ => none
end

mutual
/-- No string anywhere in the template contains a placeholder token. -/
def noPh : Jval → Bool
  | .str s => strNoPh s
  | .num _ => true
  | .bool _ => true
  | .null => true
  | .arr xs => noPhList xs
  | .obj xs => noPhObj xs
/-- Token-freedom for list elements. -/
def noPhList : JvalList → Bool
  | .nil => true
  | .cons x rest => noPh x && noPhList rest
/-- Token-freedom for object fields. -/
def noPhObj : JvalObj → Bool
  | .nil => true
  | .cons k v rest => strNoPh k && noPh v && noPhObj rest
end

/-- Key constant. -/
def start_time_key : List Char := "start_time".toList

/-- Key constant. -/
def timestamp_key : List Char := "timestamp".toList

/-- Key constant. -/
def timestamp_epoch_key : List Char := "timestamp_epoch".toList

/-- The in-place mutation `generate_mapped_json` performs on its caller's
data before rendering: when `start_time` is present (and numeric, else
`datetime.fromtimestamp` raises), overwrite `timestamp` with the
formatted local-time string and set `timestamp_epoch` to the epoch.
`fmt` is the environment's local-time formatter
(`strftime` of the local timezone). -/
def mutateTimestamp (fmt : ℚ → List Char) (data : JvalObj) : Option JvalObj :=
  match lookupObj data start_time_key with
  | none => some data
  | some (Jval.num t) =>
    some (setKey (setKey data timestamp_key (Jval.str (fmt t))) timestamp_epoch_key
      (Jval.num t))
  | some _ => none

/-- `helper_handler.generate_mapped_json` on an already-parsed template:
returns the caller's data dictionary as the function leaves it, and the
rendered template (`none` for the exceptional return of the source). -/
def generate_mapped_json (fuel : Nat) (fmt : ℚ → List Char) (template : Jval)
    (data : JvalObj) : JvalObj × Option Jval :=
  match mutateTimestamp fmt data with
  | none => (data, none)
  | some d2 => (d2, renderJval fuel d2 template)

/-- `WebHook.send_webhook`: render the header template, then the body
template, against the same (mutated) call data. -/
def webhookRender (fuel : Nat) (fmt : ℚ → List Char) (headersT bodyT : Jval)
    (data : JvalObj) : JvalObj × Option Jval × Option Jval :=
  let r1 := generate_mapped_json fuel fmt headersT data
  let r2 := generate_mapped_json fuel fmt bodyT r1.1
  (r2.1, r1.2, r2.2)

/-- The webhook loop of `process_mqtt_call`: each webhook renders against
the call data left by the previous one. -/
def webhookRenderAll (fuel : Nat) (fmt : ℚ → List Char) (ws : List (Jval × Jval))
    (data : JvalObj) : JvalObj :=
  ws.foldl (fun d w => (webhookRender fuel fmt w.1 w.2 d).1) data

/-- Outcomes of the external operations `process_mqtt_call` performs
after the duplicate check: the temp-file write, the transcode
subprocesses, the tone-detection and transcription responses, and the
archive URLs returned per artifact. -/
structure PipelineEnv where
  saveTempOk : Bool
  transcodeEnv : TranscodeEnv
  toneResult : Jval
  transcribeResult : Jval
  wavUrl : Option String
  m4aUrl : Option String
  jsonUrl : Option String

/-- Python truthiness of an optional URL with a `""` default (`None` and
the empty string are falsy). -/
def pyTruthy (o : Option String) : Bool := !(o.getD "" = "")

/-- The transcript stub assigned when transcription is not enabled. -/
def transcribeStub : Jval :=
  Jval.obj (.cons transcript_key (.str ("No Transcribe configured").toList)
    (.cons segments_key (.arr .nil)
      (.cons ("process_time_seconds").toList (.num 0)
        (.cons addresses_key (.str []) .nil))))

/-- The empty tone categories assigned when tone detection is disabled. -/
def emptyToneCategories : Jval :=
  Jval.obj (.cons hi_low_tone_key (.arr .nil)
    (.cons two_tone_key (.arr .nil)
      (.cons long_tone_key (.arr .nil) .nil)))

/-- Lines 126-131: run the transcoder when M4A compression is enabled;
returns whether an M4A now exists, and the trace of the attempt. -/
def transcodeStep (mcfg : M4aCompressionConfig) (env : PipelineEnv) : Bool × List Effect :=
  if mcfg.enabled then (compress_wav_m4a mcfg env.transcodeEnv, [Effect.transcodeAttempt])
  else (false, [])

/-- Lines 134-152: the legacy tone-detect fan-out (disabled entries only
log; failures continue). -/
def legacyEffects (ds : List LegacyDetectConfig) : List Effect :=
  ds.filterMap (fun d => if d.enabled = 1 then some (Effect.legacyUpload d.icad_url)
    else none)

/-- Lines 155-167: inline tone detection; returns the new `tones` value
(given the value currently in the record) and the trace. -/
def toneStep (cfg : ToneDetectionConfig) (env : PipelineEnv) (talkgroup_decimal : Int)
    (currentTones : Jval) : Jval × List Effect :=
  if cfg.enabled = 1 then
    if sink_gate_rejects talkgroup_decimal cfg.allowed_talkgroups then (currentTones, [])
    else (env.toneResult, [Effect.toneDetect])
  else (emptyToneCategories, [])

/-- Lines 170-184: transcription; returns the new `transcript` value and
the trace. -/
def transcribeStep (cfg : TranscribeConfig) (env : PipelineEnv) (talkgroup_decimal : Int)
    (currentTranscript : Jval) : Jval × List Effect :=
  if cfg.enabled = 1 then
    if talkgroup_is_allowed talkgroup_decimal cfg.allowed_talkgroups then
      (env.transcribeResult, [Effect.transcribeUpload])
    else (currentTranscript, [])
  else (transcribeStub, [])

/-- Lines 199-217: the archive stage; sets the URL fields from the
uploads that returned a URL (preferring the M4A URL for `audio_url`). -/
def archiveStep (cfg : ArchiveConfig) (env : PipelineEnv) (call : CallData) :
    CallData × List Effect :=
  if cfg.enabled = 1 then
    let c1 := if pyTruthy env.m4aUrl then
        { call with audio_m4a_url := env.m4aUrl, audio_url := env.m4aUrl }
      else call
    let c2 := if pyTruthy env.wavUrl then
        { c1 with audio_wav_url := env.wavUrl,
                  audio_url := if pyTruthy c1.audio_url then c1.audio_url else env.wavUrl }
      else c1
    (c2, [Effect.archiveUpload])
  else (call, [])

/-- Lines 220-222: index the call record when an index client exists. -/
def esEffects (es : Bool) : List Effect :=
  if es then [Effect.indexDoc transmission_index] else []

/-- Lines 227-233: OpenMHZ (requires an M4A). -/
def openmhzEffects (cfg : SimpleSinkConfig) (m4aExists : Bool) : List Effect :=
  if cfg.enabled = 1 ∧ m4aExists = true then [Effect.openmhzUpload] else []

/-- Lines 235-241: Broadcastify Calls (requires an M4A). -/
def bcfyEffects (cfg : SimpleSinkConfig) (m4aExists : Bool) : List Effect :=
  if cfg.enabled = 1 ∧ m4aExists = true then [Effect.bcfyUpload] else []

/-- Lines 244-252: iCAD Player (requires a truthy archived M4A URL, the
enable flag, and the talkgroup gate). -/
def playerEffects (cfg : PlayerConfig) (m4aUrl : Option String)
    (talkgroup_decimal : Int) : List Effect :=
  if pyTruthy m4aUrl ∧ cfg.enabled = 1 then
    if sink_gate_rejects talkgroup_decimal cfg.allowed_talkgroups then []
    else [Effect.icadPlayerUpload]
  else []

/-- Lines 255-269: the RDIO fan-out (enabled entries without an M4A only
log). -/
def rdioEffects (rs : List RdioConfig) (m4aExists : Bool) : List Effect :=
  rs.filterMap (fun r =>
    if r.enabled = 1 then
      if m4aExists then some (Effect.rdioUpload r.rdio_url) else none
    else none)

/-- Lines 272-285: the Trunk Player fan-out (requires an M4A). -/
def trunkEffects (ts : List TrunkPlayerConfig) (m4aExists : Bool) : List Effect :=
  ts.filterMap (fun t =>
    if t.enabled = 1 then
      if m4aExists then some (Effect.trunkPlayerUpload t.api_url) else none
    else none)

/-- Lines 288-301: the iCAD Cloud Detect fan-out (integer-membership
gate). -/
def cloudDetectEffects (cs : List CloudDetectConfig) (talkgroup_decimal : Int) :
    List Effect :=
  cs.filterMap (fun c =>
    if c.enabled = 1 then
      if cloud_detect_gate talkgroup_decimal c.allowed_talkgroups then
        some (Effect.cloudDetectUpload c.api_url)
      else none
    else none)

/-- Lines 304-312: iCAD Alerting (talkgroup gate). -/
def alertEffects (cfg : AlertingConfig) (talkgroup_decimal : Int) : List Effect :=
  if cfg.enabled = 1 then
    if sink_gate_rejects talkgroup_decimal cfg.allowed_talkgroups then []
    else [Effect.alertUpload]
  else []

/-- Lines 315-326: the webhook fan-out (talkgroup gate). -/
def webhookEffects (ws : List WebhookConfig) (talkgroup_decimal : Int) : List Effect :=
  ws.filterMap (fun w =>
    if w.enabled = 1 then
      if sink_gate_rejects talkgroup_decimal w.allowed_talkgroups then none
      else some (Effect.webhookSend w.webhook_url)
    else none)

/-- Lines 125-330 of `process_mqtt_call`: everything after the temporary
files were written.  This region of the source is straight-line (no
further `return`), ending in the temp-file cleanup. -/
def pipelineRest (es : Bool) (scfg : SystemConfig) (env : PipelineEnv)
    (call : CallData) : CallData × List Effect :=
  let tr := transcodeStep scfg.audio_compression.m4a_audio_compression env
  let m4aExists := tr.1
  let tones := toneStep scfg.tone_detection env call.talkgroup call.tones
  let call2 := { call with tones := tones.1 }
  let transcript := transcribeStep scfg.transcribe env call.talkgroup call2.transcript
  let call3 := { call2 with transcript := transcript.1 }
  let call4 := { call3 with play_length := call3.freqList.foldl (· + ·) 0 }
  let arch := archiveStep scfg.archive env call4
  let call5 := arch.1
  (call5,
    tr.2 ++ legacyEffects scfg.icad_tone_detect_legacy ++ tones.2 ++ transcript.2 ++
    [Effect.saveJsonSidecar] ++ arch.2 ++ esEffects es ++
    openmhzEffects scfg.openmhz m4aExists ++
    bcfyEffects scfg.broadcastify_calls m4aExists ++
    playerEffects scfg.icad_player call5.audio_m4a_url call.talkgroup ++
    rdioEffects scfg.rdio_systems m4aExists ++
    trunkEffects scfg.trunk_player_systems m4aExists ++
    cloudDetectEffects scfg.icad_cloud_detect call.talkgroup ++
    alertEffects scfg.icad_alerting call.talkgroup ++
    webhookEffects scfg.webhooks call.talkgroup ++
    [Effect.cleanTemp])

/-- `call_processor.process_mqtt_call`: the guards, the duplicate
check-and-insert, the enrichment-slot initialisation, the temp-file
write, and the rest of the pipeline.  Returns the new shared history,
the final call record, and the trace of effects in program order. -/
def processMqttCall (es : Bool) (gcfg : GlobalConfig) (env : PipelineEnv)
    (h : History) (call : CallData) : History × CallData × List Effect :=
  if call.short_name = "" then (h, call, [])
  else
    match lookupSystem gcfg.systems call.short_name with
    | none => (h, call, [])
    | some scfg =>
      let dd := dedupOutcome scfg call h
      if dd.2 then
        (dd.1, call, if es then [Effect.indexDoc duplicate_index] else [])
      else
        let call1 := { call with tones := Jval.obj JvalObj.nil,
                                 transcript := Jval.arr JvalList.nil }
        if env.saveTempOk then
          let rest := pipelineRest es scfg env call1
          (dd.1, rest.1, Effect.tempWrite :: rest.2)
        else (dd.1, call1, [Effect.tempWrite])

/-- The empty shared history. -/
def emptyHistory : History := fun _ _ => []

/-- A sample call on system `sys1`, talkgroup 100. -/
def callA : CallData :=
  ⟨"sys1", 100, 1700000000, 5, "alpha", "a.wav", [], Jval.null, Jval.null, 0,
    none, none, none⟩

/-- A near-identical call from another producer instance. -/
def callB : CallData :=
  ⟨"sys1", 100, 1700000000, 5, "bravo", "b.wav", [], Jval.null, Jval.null, 0,
    none, none, none⟩

/-- A call whose system short name is not configured. -/
def callUnknown : CallData :=
  ⟨"nowhere", 100, 1700000000, 5, "alpha", "a.wav", [], Jval.null, Jval.null, 0,
    none, none, none⟩

/-- Duplicate detection disabled. -/
def dupOff : DupConfig := ⟨0, [], 1, 1, false⟩

/-- Duplicate detection enabled, no simulcast list, thresholds of one
second, `check_same_instance` false. -/
def dupOn : DupConfig := ⟨1, [], 1, 1, false⟩

/-- Duplicate detection enabled with a simulcast list containing 100. -/
def dupSimulcast : DupConfig := ⟨1, [100, 101], 1, 1, false⟩

/-- M4A compression disabled. -/
def m4aOff : M4aCompressionConfig := ⟨false, false, false⟩

/-- M4A compression enabled with two-pass loudness normalization. -/
def m4aLoudnorm : M4aCompressionConfig := ⟨true, true, true⟩

/-- A system with every feature disabled. -/
def baseSystem : SystemConfig :=
  ⟨dupOff, ⟨m4aOff⟩, [], ⟨0, []⟩, ⟨0, []⟩, ⟨0⟩, ⟨0⟩, ⟨0⟩, ⟨0, []⟩, [], [], [],
    ⟨0, []⟩, []⟩

/-- A transcode environment whose first-pass loudnorm JSON cannot be
parsed (everything else succeeds). -/
def transcodeFailEnv : TranscodeEnv := ⟨true, true, true, false, true, true⟩

/-- A fully successful transcode environment. -/
def transcodeOkEnv : TranscodeEnv := ⟨true, true, true, true, true, true⟩

/-- A quiet pipeline environment (temp write succeeds; no archive URLs). -/
def envBasic : PipelineEnv := ⟨true, transcodeOkEnv, Jval.null, Jval.null, none, none, none⟩

/-- System used to test a failing transcode: compression with loudnorm,
and the downstream stages and sinks enabled. -/
def sysC2 : SystemConfig :=
  { baseSystem with
      audio_compression := ⟨m4aLoudnorm⟩,
      tone_detection := ⟨1, [TgEntry.star]⟩,
      transcribe := ⟨1, [TgEntry.star]⟩,
      archive := ⟨1⟩,
      openmhz := ⟨1⟩,
      broadcastify_calls := ⟨1⟩,
      rdio_systems := [⟨1, "rdio1"⟩],
      trunk_player_systems := [⟨1, "tp1"⟩],
      webhooks := [⟨1, [TgEntry.star], "wh1"⟩] }

/-- Global configuration carrying `sysC2`. -/
def gcfgC2 : GlobalConfig := ⟨[("sys1", sysC2)]⟩

/-- Environment for the failing-transcode run. -/
def envC2 : PipelineEnv :=
  ⟨true, transcodeFailEnv, Jval.null, Jval.null, some "wavurl", none, none⟩

/-- System with transcription enabled but allowing only talkgroup 200. -/
def sysC3 : SystemConfig := { baseSystem with transcribe := ⟨1, [TgEntry.tg 200]⟩ }

/-- Global configuration carrying `sysC3`. -/
def gcfgC3 : GlobalConfig := ⟨[("sys1", sysC3)]⟩

/-- System with one iCAD Cloud Detect sink whose allow-list is exactly
the wildcard. -/
def sysC4 : SystemConfig :=
  { baseSystem with icad_cloud_detect := [⟨1, [TgEntry.star], "cdurl"⟩] }

/-- Global configuration carrying `sysC4`. -/
def gcfgC4 : GlobalConfig := ⟨[("sys1", sysC4)]⟩

/-- A formatter standing for the environment's local-time `strftime`. -/
def fmtX : ℚ → List Char := fun _ => ['X']

/-- A placeholder-free object template. -/
def templateC8 : Jval :=
  Jval.obj (JvalObj.cons ("greeting").toList (Jval.str ("hello").toList) JvalObj.nil)

/-- Call data as the broker consumer hands it to the webhook loop:
`start_time` from the producer and `timestamp` set to the receive
epoch. -/
def dataC10 : JvalObj :=
  JvalObj.cons start_time_key (Jval.num 1700000000)
    (JvalObj.cons timestamp_key (Jval.num 1700000100) JvalObj.nil)

/-- C1: a newly arrived call is classified as a duplicate of a stored one
iff the start times differ by at most the start threshold, the lengths
differ by at most the length threshold, and either `check_same_instance`
is set or the instance ids differ; with `check_same_instance` false,
equal instance ids force a non-duplicate verdict whatever the deltas. -/
theorem is_duplicate_characterization (a b : CallData) (T L : ℚ) (c : Bool) :
    is_duplicate a b T L c = true ↔
      (|a.start_time - b.start_time| ≤ T ∧ |a.call_length - b.call_length| ≤ L ∧
        (c = true ∨ a.instance_id ≠ b.instance_id)) := by
  unfold is_duplicate
  cases c <;> by_cases hid : a.instance_id = b.instance_id <;>
      simp [hid, abs_sub_le_iff, and_assoc] <;>
    constructor <;> rintro ⟨h1, h2, h3, h4⟩ <;>
    exact ⟨by linarith, by linarith, by linarith, by linarith⟩

/-- Instance of the C1 characterization at a concrete pair of calls. -/
theorem is_duplicate_characterization_witness :
    is_duplicate callA callB 1 1 false = true ↔
      (|callA.start_time - callB.start_time| ≤ 1 ∧
        |callA.call_length - callB.call_length| ≤ 1 ∧
        (false = true ∨ callA.instance_id ≠ callB.instance_id)) :=
  is_duplicate_characterization callA callB 1 1 false

/-- C7: the index client creates only four indices — there is no units
index — and `index_document` drops documents addressed to `icad-units`
(the name the broker consumer uses for `units/call` and `units/end`
messages) while accepting the four known names. -/
theorem units_documents_dropped :
    index_document_target units_document_index = none ∧
    units_document_index ∉ create_indices ∧
    create_indices = [rate_index, transmission_index, recorder_index, duplicate_index] ∧
    index_document_target transmission_index = some transmission_index ∧
    index_document_target rate_index = some rate_index ∧
    index_document_target recorder_index = some recorder_index ∧
    index_document_target duplicate_index = some duplicate_index := by
  refine ⟨by decide, by decide, rfl, by decide, by decide, by decide, by decide⟩

/-- C9: the duplicate window's check phase and insert phase are separate
accesses to the shared history and the source holds no lock across them
(`history_lock` is defined but never acquired), so the interleaving in
which both workers check before either inserts stores both of two
mutually duplicate calls, while either serialized order stores exactly
one. -/
theorem history_check_insert_not_serialized :
    ((serializedCheckInsert dupOn "sys1" callA callB emptyHistory) "sys1" 100).length = 1 ∧
    ((serializedCheckInsert dupOn "sys1" callB callA emptyHistory) "sys1" 100).length = 1 ∧
    ((interleavedCheckInsert dupOn "sys1" callA callB emptyHistory) "sys1" 100).length = 2 ∧
    dedupCheck dupOn "sys1" callB
      (dedupCheckInsert dupOn "sys1" callA emptyHistory).1 = true := by
  have hne : ("alpha" : String) ≠ "bravo" := by decide
  have hne2 : ("bravo" : String) ≠ "alpha" := by decide
  refine ⟨?_, ?_, ?_, ?_⟩ <;>
    norm_num [serializedCheckInsert, interleavedCheckInsert, dedupCheckInsert, dedupCheck,
      dedupInsert, relevantTalkgroups, historyAppend, truncate15, emptyHistory, dupOn,
      is_duplicate, callA, callB, hne, hne2]

/-- C4 counterexample: an iCAD Cloud Detect allow-list consisting of the
wildcard admits nothing — the gate tests only integer membership — so a
call on talkgroup 100 is not uploaded even though the list contains the
wildcard entry. -/
theorem cloud_detect_wildcard_not_honored :
    cloud_detect_gate 100 [TgEntry.star] = false ∧
    TgEntry.star ∈ [TgEntry.star] ∧
    Effect.cloudDetectUpload "cdurl" ∉
      (processMqttCall false gcfgC4 envBasic emptyHistory callA).2.2 := by
  refine ⟨by decide, by decide, by decide⟩

/-- C4 as amended: the iCAD Player, iCAD Alerting and webhook gates (and
`talkgroup_is_allowed`, used by transcription) accept iff the list holds
the wildcard or the talkgroup integer, and the empty list admits
nothing; the iCAD Cloud Detect gate accepts iff the list holds the
talkgroup integer, ignoring the wildcard. -/
theorem sink_talkgroup_gates (tg0 : Int) (allowed : List TgEntry) :
    ((!(sink_gate_rejects tg0 allowed)) =
      (decide (TgEntry.star ∈ allowed) || decide (TgEntry.tg tg0 ∈ allowed))) ∧
    (talkgroup_is_allowed tg0 allowed =
      (decide (TgEntry.star ∈ allowed) || decide (TgEntry.tg tg0 ∈ allowed))) ∧
    (cloud_detect_gate tg0 allowed = decide (TgEntry.tg tg0 ∈ allowed)) ∧
    ((!(sink_gate_rejects tg0 [])) = false) ∧
    (cloud_detect_gate tg0 [] = false) ∧
    (talkgroup_is_allowed tg0 [] = false) := by
  refine ⟨?_, rfl, rfl, ?_, ?_, ?_⟩
  · simp [sink_gate_rejects, Bool.or_comm]
  · simp [sink_gate_rejects]
  · simp [cloud_detect_gate]
  · simp [talkgroup_is_allowed]

/-- Instance of the C4 gate characterization at a concrete input. -/
theorem sink_talkgroup_gates_witness :
    ((!(sink_gate_rejects 100 [TgEntry.star])) =
      (decide (TgEntry.star ∈ [TgEntry.star]) || decide (TgEntry.tg 100 ∈ [TgEntry.star]))) ∧
    (talkgroup_is_allowed 100 [TgEntry.star] =
      (decide (TgEntry.star ∈ [TgEntry.star]) || decide (TgEntry.tg 100 ∈ [TgEntry.star]))) ∧
    (cloud_detect_gate 100 [TgEntry.star] = decide (TgEntry.tg 100 ∈ [TgEntry.star])) ∧
    ((!(sink_gate_rejects 100 [])) = false) ∧
    (cloud_detect_gate 100 [] = false) ∧
    (talkgroup_is_allowed 100 [] = false) :=
  sink_talkgroup_gates 100 [TgEntry.star]

/-- C6: a call whose short name is empty or not configured leaves the
pipeline before any effect: the history, the call record and the effect
trace all come back untouched. -/
theorem unknown_system_no_effects (es : Bool) (gcfg : GlobalConfig) (env : PipelineEnv)
    (h : History) (call : CallData)
    (hx : call.short_name = "" ∨ lookupSystem gcfg.systems call.short_name = none) :
    processMqttCall es gcfg env h call = (h, call, []) := by
  unfold processMqttCall
  rcases hx with hx | hx
  · rw [if_pos hx]
  · by_cases hsn : call.short_name = ""
    · rw [if_pos hsn]
    · rw [if_neg hsn, hx]

/-- C6 at a concrete unconfigured call. -/
theorem unknown_system_no_effects_witness :
    (callUnknown.short_name = "" ∨
      lookupSystem gcfgC3.systems callUnknown.short_name = none) ∧
    processMqttCall false gcfgC3 envBasic emptyHistory callUnknown =
      (emptyHistory, callUnknown, []) :=
  ⟨Or.inr rfl, unknown_system_no_effects false gcfgC3 envBasic emptyHistory callUnknown
    (Or.inr rfl)⟩

/-- The slice applied by the truncation always keeps the last entries. -/
theorem truncate15_eq_drop (l : List CallData) :
    truncate15 l = l.drop (l.length - 15) := by
  by_cases h : l.length > 15
  · simp [truncate15, h]
  · have h0 : l.length - 15 = 0 := by omega
    simp [truncate15, h, h0]

/-- A truncated entry never exceeds 15 records. -/
theorem truncate15_length_le (l : List CallData) : (truncate15 l).length ≤ 15 := by
  rw [truncate15_eq_drop]
  simp only [List.length_drop]
  omega

/-- Appending touches exactly the addressed entry. -/
theorem historyAppend_same (h : History) (sn : String) (t : Int) (c : CallData) :
    historyAppend h sn t c sn t = truncate15 (h sn t ++ [c]) := by
  simp [historyAppend]

/-- Appending leaves every other entry unchanged. -/
theorem historyAppend_ne (h : History) (sn : String) (t : Int) (c : CallData)
    (sn2 : String) (t2 : Int) (hx : ¬(sn2 = sn ∧ t2 = t)) :
    historyAppend h sn t c sn2 t2 = h sn2 t2 := by
  simp [historyAppend, hx]

/-- The insert fold leaves entries outside the written set unchanged. -/
theorem insertFold_ne (sn : String) (c : CallData) :
    ∀ (L : List Int) (h : History) (sn2 : String) (t2 : Int),
      ¬(sn2 = sn ∧ t2 ∈ L) →
      (L.foldl (fun acc t => historyAppend acc sn t c) h) sn2 t2 = h sn2 t2 := by
  intro L
  induction L with
  | nil => intro h sn2 t2 _; rfl
  | cons a L ih =>
    intro h sn2 t2 hx
    simp only [List.foldl_cons]
    rw [ih (historyAppend h sn a c) sn2 t2
        (fun hc => hx ⟨hc.1, List.mem_cons_of_mem a hc.2⟩),
      historyAppend_ne h sn a c sn2 t2 (fun hc => hx ⟨hc.1, by simp [hc.2]⟩)]

/-- On a duplicate-free write set, the insert fold appends the call to
every written entry (once, by the no-duplicates hypothesis). -/
theorem insertFold_mem (sn : String) (c : CallData) :
    ∀ (L : List Int), L.Nodup → ∀ (h : History) (t : Int), t ∈ L →
      (L.foldl (fun acc t2 => historyAppend acc sn t2 c) h) sn t =
        truncate15 (h sn t ++ [c]) := by
  intro L
  induction L with
  | nil => intro _ h t ht; simp at ht
  | cons a L ih =>
    intro hnd h t ht
    simp only [List.foldl_cons]
    rcases List.mem_cons.mp ht with rfl | htL
    · have haL : t ∉ L := (List.nodup_cons.mp hnd).1
      rw [insertFold_ne sn c L (historyAppend h sn t c) sn t (fun hc => haL hc.2),
        historyAppend_same]
    · have hne : t ≠ a := fun he => (List.nodup_cons.mp hnd).1 (he ▸ htL)
      rw [ih (List.nodup_cons.mp hnd).2 (historyAppend h sn a c) t htL,
        historyAppend_ne h sn a c sn t (fun hc => hne hc.2)]

/-- The insert fold preserves the 15-record bound of every entry. -/
theorem insertFold_bound (sn : String) (c : CallData) :
    ∀ (L : List Int) (h : History), (∀ s t, (h s t).length ≤ 15) →
      ∀ s t, ((L.foldl (fun acc t2 => historyAppend acc sn t2 c) h) s t).length ≤ 15 := by
  intro L
  induction L with
  | nil => intro h hb s t; exact hb s t
  | cons a L ih =>
    intro h hb s t
    simp only [List.foldl_cons]
    apply ih
    intro s2 t2
    by_cases hc : s2 = sn ∧ t2 = a
    · rw [hc.1, hc.2, historyAppend_same]
      exact truncate15_length_le _
    · rw [historyAppend_ne h sn a c s2 t2 hc]
      exact hb s2 t2

/-- C5: one check-and-insert preserves the window invariant — every
entry keeps at most 15 records; a detected duplicate leaves the history
untouched; an accepted call is appended (and the entry truncated to its
15 most recent records) for exactly the checked talkgroups, which are
the whole simulcast list when the call's talkgroup is in it and just the
call's talkgroup otherwise. -/
theorem dedup_window_invariant (d : DupConfig) (sn : String) (c : CallData) (h : History)
    (hbound : ∀ s t, (h s t).length ≤ 15) (hsim : d.simulcast_talkgroups.Nodup) :
    (∀ s t, ((dedupCheckInsert d sn c h).1 s t).length ≤ 15) ∧
    ((dedupCheckInsert d sn c h).2 = true → (dedupCheckInsert d sn c h).1 = h) ∧
    ((dedupCheckInsert d sn c h).2 = false →
      (∀ t ∈ relevantTalkgroups d c.talkgroup,
        (dedupCheckInsert d sn c h).1 sn t = truncate15 (h sn t ++ [c]) ∧
        (dedupCheckInsert d sn c h).1 sn t =
          (h sn t ++ [c]).drop ((h sn t ++ [c]).length - 15)) ∧
      (∀ s t, ¬(s = sn ∧ t ∈ relevantTalkgroups d c.talkgroup) →
        (dedupCheckInsert d sn c h).1 s t = h s t)) ∧
    relevantTalkgroups d c.talkgroup =
      (if c.talkgroup ∈ d.simulcast_talkgroups then d.simulcast_talkgroups
        else [c.talkgroup]) := by
  have hnd : (relevantTalkgroups d c.talkgroup).Nodup := by
    unfold relevantTalkgroups
    split
    · exact hsim
    · simp
  unfold dedupCheckInsert
  by_cases hc : dedupCheck d sn c h
  · rw [if_pos hc]
    refine ⟨fun s t => hbound s t, fun _ => rfl, ?_, rfl⟩
    intro hf
    simp at hf
  · rw [if_neg hc]
    refine ⟨?_, ?_, ?_, rfl⟩
    · exact fun s t => insertFold_bound sn c (relevantTalkgroups d c.talkgroup) h hbound s t
    · intro hf
      simp at hf
    · intro _
      refine ⟨?_, ?_⟩
      · intro t ht
        have he := insertFold_mem sn c (relevantTalkgroups d c.talkgroup) hnd h t ht
        exact ⟨he, he.trans (truncate15_eq_drop _)⟩
      · intro s t hx
        exact insertFold_ne sn c (relevantTalkgroups d c.talkgroup) h s t hx

/-- C5 at a concrete simulcast configuration and call. -/
theorem dedup_window_invariant_witness :
    (∀ s t, (emptyHistory s t).length ≤ 15) ∧
    dupSimulcast.simulcast_talkgroups.Nodup ∧
    (∀ s t, ((dedupCheckInsert dupSimulcast "sys1" callA emptyHistory).1 s t).length ≤ 15) :=
  ⟨fun s t => by simp [emptyHistory], by decide,
    (dedup_window_invariant dupSimulcast "sys1" callA emptyHistory
      (fun s t => by simp [emptyHistory]) (by decide)).1⟩

theorem mem_transcodeStep (mcfg : M4aCompressionConfig) (env : PipelineEnv) (e : Effect)
    (he : e ∈ (transcodeStep mcfg env).2) : e = Effect.transcodeAttempt := by
  unfold transcodeStep at he
  split_ifs at he <;> simp_all

theorem mem_legacyEffects (ds : List LegacyDetectConfig) (e : Effect)
    (he : e ∈ legacyEffects ds) : ∃ u, e = Effect.legacyUpload u := by
  simp only [legacyEffects, List.mem_filterMap] at he
  obtain ⟨d, _, hd⟩ := he
  by_cases h1 : d.enabled = 1
  · simp [h1] at hd
    exact ⟨d.icad_url, hd.symm⟩
  · simp [h1] at hd

theorem mem_toneStep (cfg : ToneDetectionConfig) (env : PipelineEnv) (tg : Int)
    (cur : Jval) (e : Effect) (he : e ∈ (toneStep cfg env tg cur).2) :
    e = Effect.toneDetect := by
  unfold toneStep at he
  split_ifs at he <;> simp_all

theorem mem_transcribeStep (cfg : TranscribeConfig) (env : PipelineEnv) (tg : Int)
    (cur : Jval) (e : Effect) (he : e ∈ (transcribeStep cfg env tg cur).2) :
    e = Effect.transcribeUpload ∧ cfg.enabled = 1 ∧
      talkgroup_is_allowed tg cfg.allowed_talkgroups = true := by
  unfold transcribeStep at he
  split_ifs at he <;> simp_all

theorem mem_archiveStep (cfg : ArchiveConfig) (env : PipelineEnv) (c : CallData)
    (e : Effect) (he : e ∈ (archiveStep cfg env c).2) : e = Effect.archiveUpload := by
  unfold archiveStep at he
  split_ifs at he <;> simp_all

theorem mem_esEffects (es : Bool) (e : Effect) (he : e ∈ esEffects es) :
    e = Effect.indexDoc transmission_index := by
  unfold esEffects at he
  split_ifs at he <;> simp_all

theorem mem_openmhzEffects (cfg : SimpleSinkConfig) (m4a : Bool) (e : Effect)
    (he : e ∈ openmhzEffects cfg m4a) : e = Effect.openmhzUpload ∧ m4a = true := by
  unfold openmhzEffects at he
  split_ifs at he with h <;> simp_all

theorem mem_bcfyEffects (cfg : SimpleSinkConfig) (m4a : Bool) (e : Effect)
    (he : e ∈ bcfyEffects cfg m4a) : e = Effect.bcfyUpload ∧ m4a = true := by
  unfold bcfyEffects at he
  split_ifs at he with h <;> simp_all

theorem mem_playerEffects (cfg : PlayerConfig) (url : Option String) (tg : Int)
    (e : Effect) (he : e ∈ playerEffects cfg url tg) : e = Effect.icadPlayerUpload := by
  unfold playerEffects at he
  split_ifs at he <;> simp_all

theorem mem_rdioEffects (rs : List RdioConfig) (m4a : Bool) (e : Effect)
    (he : e ∈ rdioEffects rs m4a) : (∃ u, e = Effect.rdioUpload u) ∧ m4a = true := by
  simp only [rdioEffects, List.mem_filterMap] at he
  obtain ⟨r, _, hr⟩ := he
  by_cases h1 : r.enabled = 1
  · cases m4a
    · simp [h1] at hr
    · simp [h1] at hr
      exact ⟨⟨r.rdio_url, hr.symm⟩, rfl⟩
  · simp [h1] at hr

theorem mem_trunkEffects (ts : List TrunkPlayerConfig) (m4a : Bool) (e : Effect)
    (he : e ∈ trunkEffects ts m4a) :
    (∃ u, e = Effect.trunkPlayerUpload u) ∧ m4a = true := by
  simp only [trunkEffects, List.mem_filterMap] at he
  obtain ⟨t, _, ht⟩ := he
  by_cases h1 : t.enabled = 1
  · cases m4a
    · simp [h1] at ht
    · simp [h1] at ht
      exact ⟨⟨t.api_url, ht.symm⟩, rfl⟩
  · simp [h1] at ht

theorem mem_cloudDetectEffects (cs : List CloudDetectConfig) (tg : Int) (e : Effect)
    (he : e ∈ cloudDetectEffects cs tg) : ∃ u, e = Effect.cloudDetectUpload u := by
  simp only [cloudDetectEffects, List.mem_filterMap] at he
  obtain ⟨c, _, hc⟩ := he
  by_cases h1 : c.enabled = 1
  · by_cases h2 : cloud_detect_gate tg c.allowed_talkgroups = true
    · simp [h1, h2] at hc
      exact ⟨c.api_url, hc.symm⟩
    · simp [h1, h2] at hc
  · simp [h1] at hc

theorem mem_alertEffects (cfg : AlertingConfig) (tg : Int) (e : Effect)
    (he : e ∈ alertEffects cfg tg) : e = Effect.alertUpload := by
  unfold alertEffects at he
  split_ifs at he <;> simp_all

theorem mem_webhookEffects (ws : List WebhookConfig) (tg : Int) (e : Effect)
    (he : e ∈ webhookEffects ws tg) : ∃ u, e = Effect.webhookSend u := by
  simp only [webhookEffects, List.mem_filterMap] at he
  obtain ⟨w, _, hw⟩ := he
  by_cases h1 : w.enabled = 1
  · by_cases h2 : sink_gate_rejects tg w.allowed_talkgroups = true
    · simp [h1, h2] at hw
    · simp [h1, h2] at hw
      exact ⟨w.webhook_url, hw.symm⟩
  · simp [h1] at hw

theorem pipelineRest_effect_cases (es : Bool) (scfg : SystemConfig) (env : PipelineEnv)
    (call : CallData) (e : Effect) (he : e ∈ (pipelineRest es scfg env call).2) :
    e = Effect.transcodeAttempt ∨ (∃ u, e = Effect.legacyUpload u) ∨
    e = Effect.toneDetect ∨
    (e = Effect.transcribeUpload ∧ scfg.transcribe.enabled = 1 ∧
      talkgroup_is_allowed call.talkgroup scfg.transcribe.allowed_talkgroups = true) ∨
    e = Effect.saveJsonSidecar ∨ e = Effect.archiveUpload ∨
    e = Effect.indexDoc transmission_index ∨
    ((e = Effect.openmhzUpload ∨ e = Effect.bcfyUpload ∨
      (∃ u, e = Effect.rdioUpload u) ∨ (∃ u, e = Effect.trunkPlayerUpload u)) ∧
      (transcodeStep scfg.audio_compression.m4a_audio_compression env).1 = true) ∨
    e = Effect.icadPlayerUpload ∨ (∃ u, e = Effect.cloudDetectUpload u) ∨
    e = Effect.alertUpload ∨ (∃ u, e = Effect.webhookSend u) ∨ e = Effect.cleanTemp := by
  simp only [pipelineRest, List.mem_append, List.mem_singleton] at he
  rcases he with ((((((((((((((h|h)|h)|h)|h)|h)|h)|h)|h)|h)|h)|h)|h)|h)|h)|h
  · have := mem_transcodeStep _ _ _ h; tauto
  · have := mem_legacyEffects _ _ h; tauto
  · have := mem_toneStep _ _ _ _ _ h; tauto
  · have := mem_transcribeStep _ _ _ _ _ h; tauto
  · tauto
  · have := mem_archiveStep _ _ _ _ h; tauto
  · have := mem_esEffects _ _ h; tauto
  · have := mem_openmhzEffects _ _ _ h; tauto
  · have := mem_bcfyEffects _ _ _ h; tauto
  · have := mem_playerEffects _ _ _ _ h; tauto
  · have := mem_rdioEffects _ _ _ h; tauto
  · have := mem_trunkEffects _ _ _ h; tauto
  · have := mem_cloudDetectEffects _ _ _ h; tauto
  · have := mem_alertEffects _ _ _ h; tauto
  · have := mem_webhookEffects _ _ _ h; tauto
  · tauto

/-- C2 counterexample: with compression enabled and the two-pass loudnorm
transcode failing (no parsable loudnorm JSON), the pipeline still runs
tone detection, transcription, the archive upload, a webhook, and the
final cleanup — it does not return early; only the M4A-requiring sinks
are skipped. -/
theorem transcode_failure_not_fatal_cx :
    compress_wav_m4a m4aLoudnorm envC2.transcodeEnv = false ∧
    Effect.cleanTemp ∈ (processMqttCall true gcfgC2 envC2 emptyHistory callA).2.2 ∧
    Effect.toneDetect ∈ (processMqttCall true gcfgC2 envC2 emptyHistory callA).2.2 ∧
    Effect.transcribeUpload ∈ (processMqttCall true gcfgC2 envC2 emptyHistory callA).2.2 ∧
    Effect.archiveUpload ∈ (processMqttCall true gcfgC2 envC2 emptyHistory callA).2.2 ∧
    Effect.webhookSend "wh1" ∈ (processMqttCall true gcfgC2 envC2 emptyHistory callA).2.2 ∧
    Effect.openmhzUpload ∉ (processMqttCall true gcfgC2 envC2 emptyHistory callA).2.2 := by
  refine ⟨rfl, by decide, by decide, by decide, by decide, by decide, by decide⟩

/-- C2 as amended: when compression is enabled and the transcoder fails,
the pipeline continues — the JSON sidecar rewrite and the final cleanup
still happen — and the M4A-requiring sinks (OpenMHZ, Broadcastify, RDIO,
Trunk Player) are the only stages suppressed by the failure. -/
theorem transcode_failure_pipeline_continues (es : Bool) (scfg : SystemConfig)
    (env : PipelineEnv) (call : CallData)
    (hEn : scfg.audio_compression.m4a_audio_compression.enabled = true)
    (hFail : compress_wav_m4a scfg.audio_compression.m4a_audio_compression
      env.transcodeEnv = false) :
    Effect.cleanTemp ∈ (pipelineRest es scfg env call).2 ∧
    Effect.saveJsonSidecar ∈ (pipelineRest es scfg env call).2 ∧
    Effect.openmhzUpload ∉ (pipelineRest es scfg env call).2 ∧
    Effect.bcfyUpload ∉ (pipelineRest es scfg env call).2 ∧
    (∀ u, Effect.rdioUpload u ∉ (pipelineRest es scfg env call).2) ∧
    (∀ u, Effect.trunkPlayerUpload u ∉ (pipelineRest es scfg env call).2) := by
  have hm4a : (transcodeStep scfg.audio_compression.m4a_audio_compression env).1 = false := by
    simp [transcodeStep, hEn, hFail]
  refine ⟨?_, ?_, ?_, ?_, ?_, ?_⟩
  · simp [pipelineRest]
  · simp [pipelineRest]
  · intro hmem
    rcases pipelineRest_effect_cases es scfg env call _ hmem with
      h|h|h|h|h|h|h|h|h|h|h|h|h <;> simp_all
  · intro hmem
    rcases pipelineRest_effect_cases es scfg env call _ hmem with
      h|h|h|h|h|h|h|h|h|h|h|h|h <;> simp_all
  · intro u hmem
    rcases pipelineRest_effect_cases es scfg env call _ hmem with
      h|h|h|h|h|h|h|h|h|h|h|h|h <;> simp_all
  · intro u hmem
    rcases pipelineRest_effect_cases es scfg env call _ hmem with
      h|h|h|h|h|h|h|h|h|h|h|h|h <;> simp_all

/-- C2 amended, at the concrete failing-transcode configuration. -/
theorem transcode_failure_pipeline_continues_witness :
    sysC2.audio_compression.m4a_audio_compression.enabled = true ∧
    compress_wav_m4a sysC2.audio_compression.m4a_audio_compression
      envC2.transcodeEnv = false ∧
    Effect.cleanTemp ∈ (pipelineRest true sysC2 envC2 callA).2 :=
  ⟨rfl, rfl, (transcode_failure_pipeline_continues true sysC2 envC2 callA rfl rfl).1⟩

/-- The archive stage only writes URL fields. -/
theorem archiveStep_transcript (cfg : ArchiveConfig) (env : PipelineEnv) (c : CallData) :
    (archiveStep cfg env c).1.transcript = c.transcript := by
  unfold archiveStep
  split_ifs <;> simp

/-- C3 as amended: with transcription enabled but the call's talkgroup
not admitted by the transcribe allow-list, no transcription upload
happens and the record finishes with the `[]` the pipeline initialised
the slot to — not with the "No Transcribe configured" stub, which the
code assigns only when transcription is disabled altogether. -/
theorem transcribe_gate_no_upload (es : Bool) (gcfg : GlobalConfig) (env : PipelineEnv)
    (h : History) (call : CallData) (scfg : SystemConfig)
    (hsn : ¬(call.short_name = ""))
    (hlook : lookupSystem gcfg.systems call.short_name = some scfg)
    (hdd : (dedupOutcome scfg call h).2 = false)
    (hsave : env.saveTempOk = true)
    (hen : scfg.transcribe.enabled = 1)
    (hgate : talkgroup_is_allowed call.talkgroup scfg.transcribe.allowed_talkgroups = false) :
    Effect.transcribeUpload ∉ (processMqttCall es gcfg env h call).2.2 ∧
    (processMqttCall es gcfg env h call).2.1.transcript = Jval.arr JvalList.nil := by
  constructor
  · intro hmem
    simp only [processMqttCall, hlook, if_neg hsn, hdd, Bool.false_eq_true, if_false,
      hsave, if_true, List.mem_cons] at hmem
    rcases hmem with hmem | hmem
    · exact Effect.noConfusion hmem
    · rcases pipelineRest_effect_cases es scfg env _ _ hmem with
        h|h|h|h|h|h|h|h|h|h|h|h|h <;> simp_all
  · simp only [processMqttCall, hlook, if_neg hsn, hdd, Bool.false_eq_true, if_false,
      hsave, if_true]
    simp [pipelineRest, archiveStep_transcript, transcribeStep, hen, hgate]

/-- C3 amended, at the concrete gated configuration. -/
theorem transcribe_gate_no_upload_witness :
    (¬(callA.short_name = "")) ∧
    lookupSystem gcfgC3.systems callA.short_name = some sysC3 ∧
    (dedupOutcome sysC3 callA emptyHistory).2 = false ∧
    envBasic.saveTempOk = true ∧
    sysC3.transcribe.enabled = 1 ∧
    talkgroup_is_allowed callA.talkgroup sysC3.transcribe.allowed_talkgroups = false ∧
    Effect.transcribeUpload ∉
      (processMqttCall false gcfgC3 envBasic emptyHistory callA).2.2 :=
  ⟨by decide, rfl, rfl, rfl, rfl, by decide,
    (transcribe_gate_no_upload false gcfgC3 envBasic emptyHistory callA sysC3
      (by decide) rfl rfl rfl rfl (by decide)).1⟩

/-- C3 counterexample: at the gated configuration the finished record's
transcript is the empty list, not the "No Transcribe configured" stub
the claim expects (and no upload happened). -/
theorem transcribe_gate_stub_cx :
    Effect.transcribeUpload ∉
      (processMqttCall false gcfgC3 envBasic emptyHistory callA).2.2 ∧
    (processMqttCall false gcfgC3 envBasic emptyHistory callA).2.1.transcript =
      Jval.arr JvalList.nil ∧
    (processMqttCall false gcfgC3 envBasic emptyHistory callA).2.1.transcript ≠
      transcribeStub := by
  refine ⟨by decide, rfl, ?_⟩
  have hT : (processMqttCall false gcfgC3 envBasic emptyHistory callA).2.1.transcript =
      Jval.arr JvalList.nil := rfl
  rw [hT, transcribeStub]
  exact fun hc => Jval.noConfusion hc

/-- A token-free string passes through the scanning loop unchanged, for
any fuel. -/
theorem renderString_noPh (s : List Char) (hs : strNoPh s = true) (fuel : Nat)
    (data : JvalObj) : renderString fuel data s = some s := by
  cases fuel with
  | zero => rfl
  | succ f =>
    have h0 : findPlaceholder s = none := by
      unfold strNoPh at hs
      exact Option.isNone_iff_eq_none.mp hs
    unfold renderString
    rw [h0]

mutual
/-- A token-free template renders to itself, for any fuel and data. -/
theorem renderJval_noPh (t : Jval) (ht : noPh t = true) :
    ∀ (fuel : Nat) (data : JvalObj), renderJval fuel data t = some t := by
  cases t with
  | str s =>
    intro fuel data
    have hs : strNoPh s = true := by simpa [noPh] using ht
    simp [renderJval, renderString_noPh s hs fuel data]
  | num q => intro fuel data; rfl
  | bool b => intro fuel data; rfl
  | null => intro fuel data; rfl
  | arr xs =>
    intro fuel data
    have hx : noPhList xs = true := by simpa [noPh] using ht
    simp [renderJval, renderJvalList_noPh xs hx fuel data]
  | obj xs =>
    intro fuel data
    have hx : noPhObj xs = true := by simpa [noPh] using ht
    simp [renderJval, renderJvalObj_noPh xs hx fuel data]
/-- Token-free list elements render to themselves. -/
theorem renderJvalList_noPh (t : JvalList) (ht : noPhList t = true) :
    ∀ (fuel : Nat) (data : JvalObj), renderJvalList fuel data t = some t := by
  cases t with
  | nil => intro fuel data; rfl
  | cons x rest =>
    intro fuel data
    have hx : noPh x = true ∧ noPhList rest = true := by
      simpa [noPhList, Bool.and_eq_true] using ht
    simp [renderJvalList, renderJval_noPh x hx.1 fuel data,
      renderJvalList_noPh rest hx.2 fuel data]
/-- Token-free object fields render to themselves. -/
theorem renderJvalObj_noPh (t : JvalObj) (ht : noPhObj t = true) :
    ∀ (fuel : Nat) (data : JvalObj), renderJvalObj fuel data t = some t := by
  cases t with
  | nil => intro fuel data; rfl
  | cons k v rest =>
    intro fuel data
    have hx : strNoPh k = true ∧ noPh v = true ∧ noPhObj rest = true := by
      simpa [noPhObj, Bool.and_eq_true, and_assoc] using ht
    simp [renderJvalObj, renderString_noPh k hx.1 fuel data,
      renderJval_noPh v hx.2.1 fuel data, renderJvalObj_noPh rest hx.2.2 fuel data]
end

/-- Assignment then lookup of the same key. -/
theorem lookupObj_setKey_self : ∀ (m : JvalObj) (k : List Char) (v : Jval),
    lookupObj (setKey m k v) k = some v
  | .nil, k, v => by simp [setKey, lookupObj]
  | .cons k0 v0 rest, k, v => by
    by_cases h : k0 = k
    · simp [setKey, h, lookupObj]
    · simp [setKey, h, lookupObj, lookupObj_setKey_self rest k v]

/-- Assignment leaves other keys' lookups unchanged. -/
theorem lookupObj_setKey_ne : ∀ (m : JvalObj) (k : List Char) (v : Jval)
    (k2 : List Char), k2 ≠ k → lookupObj (setKey m k v) k2 = lookupObj m k2
  | .nil, k, v, k2, h => by
    simp [setKey, lookupObj, Ne.symm h]
  | .cons k0 v0 rest, k, v, k2, h => by
    by_cases h0 : k0 = k
    · subst h0
      simp [setKey, lookupObj, Ne.symm h]
    · by_cases h2 : k0 = k2
      · simp [setKey, h0, lookupObj, h2, h]
      · simp [setKey, h0, lookupObj, h2, lookupObj_setKey_ne rest k v k2 h]

/-- Assigning a key the value it already holds is the identity. -/
theorem setKey_lookup_self : ∀ (m : JvalObj) (k : List Char) (v : Jval),
    lookupObj m k = some v → setKey m k v = m
  | .nil, k, v => by simp [lookupObj]
  | .cons k0 v0 rest, k, v => by
    intro h
    by_cases hk : k0 = k
    · simp [lookupObj, hk] at h
      simp [setKey, hk, h]
    · simp [lookupObj, hk] at h
      simp [setKey, hk, setKey_lookup_self rest k v h]

/-- The data mutation, explicitly, when `start_time` is numeric. -/
theorem mutateTimestamp_some (fmt : ℚ → List Char) (d : JvalObj) (st : ℚ)
    (hst : lookupObj d start_time_key = some (Jval.num st)) :
    mutateTimestamp fmt d =
      some (setKey (setKey d timestamp_key (Jval.str (fmt st))) timestamp_epoch_key
        (Jval.num st)) := by
  unfold mutateTimestamp
  rw [hst]

/-- Re-running the data mutation on already-mutated data changes
nothing: the keys it writes get the values they already hold. -/
theorem mutateTimestamp_idem (fmt : ℚ → List Char) (d d2 : JvalObj)
    (hd : mutateTimestamp fmt d = some d2) : mutateTimestamp fmt d2 = some d2 := by
  unfold mutateTimestamp at hd
  cases hlook : lookupObj d start_time_key with
  | none =>
    rw [hlook] at hd
    obtain rfl : d = d2 := by injection hd
    unfold mutateTimestamp
    rw [hlook]
  | some v =>
    rw [hlook] at hd
    cases v with
    | num st =>
      have hd2 : d2 = setKey (setKey d timestamp_key (Jval.str (fmt st)))
          timestamp_epoch_key (Jval.num st) := by
        injection hd with h
        exact h.symm
      have hst2 : lookupObj d2 start_time_key = some (Jval.num st) := by
        rw [hd2, lookupObj_setKey_ne _ _ _ _ (by decide),
          lookupObj_setKey_ne _ _ _ _ (by decide), hlook]
      have hts : lookupObj d2 timestamp_key = some (Jval.str (fmt st)) := by
        rw [hd2, lookupObj_setKey_ne _ _ _ _ (by decide), lookupObj_setKey_self]
      have htse : lookupObj d2 timestamp_epoch_key = some (Jval.num st) := by
        rw [hd2, lookupObj_setKey_self]
      rw [mutateTimestamp_some fmt d2 st hst2, setKey_lookup_self d2 timestamp_key _ hts,
        setKey_lookup_self d2 timestamp_epoch_key _ htse]
    | str s => exact Option.noConfusion hd
    | bool b => exact Option.noConfusion hd
    | null => exact Option.noConfusion hd
    | arr xs => exact Option.noConfusion hd
    | obj xs => exact Option.noConfusion hd

/-- C8: rendering a template none of whose strings contains a
placeholder token returns the template's content unchanged, and
rendering the result again (against the data as the first call left it)
yields the same output — for every fuel bound on the scanning loop. -/
theorem template_no_token_idempotent (fuel : Nat) (fmt : ℚ → List Char) (t : Jval)
    (data : JvalObj) (hph : noPh t = true)
    (hmut : (mutateTimestamp fmt data).isSome = true) :
    (generate_mapped_json fuel fmt t data).2 = some t ∧
    (generate_mapped_json fuel fmt t (generate_mapped_json fuel fmt t data).1).2 =
      some t := by
  obtain ⟨d2, hd2⟩ := Option.isSome_iff_exists.mp hmut
  have h1 : generate_mapped_json fuel fmt t data = (d2, renderJval fuel d2 t) := by
    unfold generate_mapped_json
    rw [hd2]
  constructor
  · rw [h1]
    exact renderJval_noPh t hph fuel d2
  · rw [h1]
    have hidem := mutateTimestamp_idem fmt data d2 hd2
    unfold generate_mapped_json
    rw [hidem]
    exact renderJval_noPh t hph fuel d2

/-- C8 at a concrete token-free template. -/
theorem template_no_token_idempotent_witness :
    noPh templateC8 = true ∧
    (mutateTimestamp fmtX JvalObj.nil).isSome = true ∧
    (generate_mapped_json 3 fmtX templateC8 JvalObj.nil).2 = some templateC8 :=
  ⟨by decide, rfl,
    (template_no_token_idempotent 3 fmtX templateC8 JvalObj.nil (by decide) rfl).1⟩

/-- One render call mutates the caller's data: `timestamp` becomes the
formatted local-time string, `timestamp_epoch` the epoch, `start_time`
is preserved. -/
theorem generate_mapped_json_mutates (fuel : Nat) (fmt : ℚ → List Char) (t : Jval)
    (d : JvalObj) (st : ℚ) (hst : lookupObj d start_time_key = some (Jval.num st)) :
    lookupObj (generate_mapped_json fuel fmt t d).1 timestamp_key =
      some (Jval.str (fmt st)) ∧
    lookupObj (generate_mapped_json fuel fmt t d).1 timestamp_epoch_key =
      some (Jval.num st) ∧
    lookupObj (generate_mapped_json fuel fmt t d).1 start_time_key =
      some (Jval.num st) := by
  have h1 : (generate_mapped_json fuel fmt t d).1 =
      setKey (setKey d timestamp_key (Jval.str (fmt st))) timestamp_epoch_key
        (Jval.num st) := by
    unfold generate_mapped_json
    rw [mutateTimestamp_some fmt d st hst]
  refine ⟨?_, ?_, ?_⟩
  · rw [h1, lookupObj_setKey_ne _ _ _ _ (by decide), lookupObj_setKey_self]
  · rw [h1, lookupObj_setKey_self]
  · rw [h1, lookupObj_setKey_ne _ _ _ _ (by decide),
      lookupObj_setKey_ne _ _ _ _ (by decide), hst]

/-- One webhook (headers then body) mutates the shared call data the
same way. -/
theorem webhookRender_mutates (fuel : Nat) (fmt : ℚ → List Char) (hT bT : Jval)
    (d : JvalObj) (st : ℚ) (hst : lookupObj d start_time_key = some (Jval.num st)) :
    lookupObj (webhookRender fuel fmt hT bT d).1 timestamp_key =
      some (Jval.str (fmt st)) ∧
    lookupObj (webhookRender fuel fmt hT bT d).1 timestamp_epoch_key =
      some (Jval.num st) ∧
    lookupObj (webhookRender fuel fmt hT bT d).1 start_time_key =
      some (Jval.num st) := by
  have g1 := generate_mapped_json_mutates fuel fmt hT d st hst
  have g2 := generate_mapped_json_mutates fuel fmt bT
    (generate_mapped_json fuel fmt hT d).1 st g1.2.2
  exact ⟨g2.1, g2.2.1, g2.2.2⟩

/-- The reformatted timestamp survives the rest of the webhook loop. -/
theorem webhookRenderAll_keeps (fuel : Nat) (fmt : ℚ → List Char) (st : ℚ) :
    ∀ (ws : List (Jval × Jval)) (d : JvalObj),
      lookupObj d start_time_key = some (Jval.num st) →
      lookupObj d timestamp_key = some (Jval.str (fmt st)) →
      lookupObj d timestamp_epoch_key = some (Jval.num st) →
      lookupObj (webhookRenderAll fuel fmt ws d) timestamp_key =
          some (Jval.str (fmt st)) ∧
        lookupObj (webhookRenderAll fuel fmt ws d) timestamp_epoch_key =
          some (Jval.num st) := by
  intro ws
  induction ws with
  | nil => intro d _ h2 h3; exact ⟨h2, h3⟩
  | cons w ws ih =>
    intro d h1 _ _
    have hw := webhookRender_mutates fuel fmt w.1 w.2 d st h1
    simp only [webhookRenderAll, List.foldl_cons]
    exact ih (webhookRender fuel fmt w.1 w.2 d).1 hw.2.2 hw.1 hw.2.1

/-- C10: when the call data carries `start_time` (and the broker-set
receive-epoch `timestamp`), rendering the first webhook overwrites
`timestamp` with the formatted local-time string derived from
`start_time`, adds `timestamp_epoch`, and every later webhook of the
same run sees the reformatted values. -/
theorem webhook_timestamp_overwrite (fuel : Nat) (fmt : ℚ → List Char) (data : JvalObj)
    (st recv : ℚ) (headersT bodyT : Jval) (ws : List (Jval × Jval))
    (hst : lookupObj data start_time_key = some (Jval.num st))
    (_hts : lookupObj data timestamp_key = some (Jval.num recv)) :
    lookupObj (webhookRender fuel fmt headersT bodyT data).1 timestamp_key =
      some (Jval.str (fmt st)) ∧
    lookupObj (webhookRender fuel fmt headersT bodyT data).1 timestamp_epoch_key =
      some (Jval.num st) ∧
    Jval.str (fmt st) ≠ Jval.num recv ∧
    lookupObj (webhookRenderAll fuel fmt ws (webhookRender fuel fmt headersT bodyT data).1)
      timestamp_key = some (Jval.str (fmt st)) ∧
    lookupObj (webhookRenderAll fuel fmt ws (webhookRender fuel fmt headersT bodyT data).1)
      timestamp_epoch_key = some (Jval.num st) := by
  have hw := webhookRender_mutates fuel fmt headersT bodyT data st hst
  have hall := webhookRenderAll_keeps fuel fmt st ws
    (webhookRender fuel fmt headersT bodyT data).1 hw.2.2 hw.1 hw.2.1
  exact ⟨hw.1, hw.2.1, fun hc => Jval.noConfusion hc, hall.1, hall.2⟩

/-- C10 at the concrete broker-shaped call data. -/
theorem webhook_timestamp_overwrite_witness :
    lookupObj dataC10 start_time_key = some (Jval.num 1700000000) ∧
    lookupObj dataC10 timestamp_key = some (Jval.num 1700000100) ∧
    lookupObj (webhookRender 1 fmtX (Jval.obj JvalObj.nil) (Jval.obj JvalObj.nil)
      dataC10).1 timestamp_key = some (Jval.str (fmtX 1700000000)) :=
  ⟨rfl, rfl, (webhook_timestamp_overwrite 1 fmtX dataC10 1700000000 1700000100
    (Jval.obj JvalObj.nil) (Jval.obj JvalObj.nil) [] rfl rfl).1⟩
